import Mathlib

/-!
Verification of the `KnowledgeLibraryAPI` client module
(`rag-frontend/src/api/knowledge.js`) against its specification.

The module is a stateless facade: each method issues one HTTP request through
a shared transport (`httpClient`), returns the parsed response unchanged, and
on rejection logs a diagnostic with an operation-specific label and rethrows
the same failure.  One method (`uploadFileToOSS`) bypasses the transport and
uses the raw `fetch` primitive directly.

The embedding is shallow: JavaScript values become the inductive `JSVal`;
the transport becomes a function from requests to `Except`; each method
becomes a Lean function returning an `Outcome` recording the requests it
issued, the diagnostics it emitted, and its result.  JavaScript default
parameters (e.g. `chunkStrategy = 'markdown'`) are modelled as `Option`
arguments read with `Option.getD`, `none` standing for a call that omits
the argument.  Template-literal interpolation of identifiers into paths is
modelled by taking those identifiers as their interpolated string form.
-/

namespace Knowledge

/-- A JavaScript `File` object as the module observes it: only the `type`
field is read (for the `Content-Type` header); `name` and `content` make
distinct files distinguishable. -/
structure JSFile where
  name : String
  type : String
  content : String
deriving Repr, DecidableEq

/-- Untyped JavaScript values as they appear in request payloads: strings,
numbers, plain objects (field lists), `FormData` (ordered append list), and
`File` objects.  The module performs no validation, so payload arguments
range over all of `JSVal`. -/
inductive JSVal where
  | str : String → JSVal
  | num : Int → JSVal
  | obj : List (String × JSVal) → JSVal
  | formData : List (String × JSVal) → JSVal
  | file : JSFile → JSVal
deriving Repr

/-- HTTP verbs used by the shared transport (`httpClient.get/post/put/delete`). -/
inductive HttpVerb where
  | get
  | post
  | put
  | delete
deriving Repr, DecidableEq

/-- A request handed to the shared transport: verb, path, and the optional
payload (request body for `post`/`put`, query object for `get`). -/
structure Request where
  verb : HttpVerb
  path : String
  payload : Option JSVal
deriving Repr

/-- The shared transport abstraction (`httpClient`): maps a request to either
a parsed response value (`ok`) or a rejection (`error`). -/
abbrev Transport (ε α : Type) := Request → Except ε α

/-- Observable outcome of one method call: the requests issued (in order),
the diagnostics written to the operator-facing log (label paired with the
logged failure), and the value the returned promise settles with. -/
structure Outcome (ρ ε α : Type) where
  requests : List ρ
  log : List (String × ε)
  result : Except ε α
deriving Repr

/-- The `try await transport(...) return response catch (error)
console.error(label, error); throw error` pattern shared verbatim by every
catalogue method of the source class. -/
def callVia (t : Transport ε α) (req : Request) (label : String) :
    Outcome Request ε α :=
  match t req with
  | .ok response => ⟨[req], [], .ok response⟩
  | .error e => ⟨[req], [(label, e)], .error e⟩

/-- `getLibraries()`: GET `/api/knowledge/libraries`. -/
def getLibraries (t : Transport ε α) : Outcome Request ε α :=
  callVia t ⟨.get, "/api/knowledge/libraries", none⟩ "获取知识库列表失败:"

/-- `getLibraryDetail(libraryId)`: GET `/api/knowledge/libraries/${libraryId}`. -/
def getLibraryDetail (t : Transport ε α) (libraryId : String) :
    Outcome Request ε α :=
  callVia t ⟨.get, "/api/knowledge/libraries/" ++ libraryId, none⟩ "获取知识库详情失败:"

/-- `createLibrary(libraryData)`: POST `/api/knowledge/libraries` with the
caller's payload forwarded as-is. -/
def createLibrary (t : Transport ε α) (libraryData : JSVal) :
    Outcome Request ε α :=
  callVia t ⟨.post, "/api/knowledge/libraries", some libraryData⟩ "创建知识库失败:"

/-- `updateLibrary(libraryId, libraryData)`: PUT
`/api/knowledge/libraries/${libraryId}` with the caller's payload as-is. -/
def updateLibrary (t : Transport ε α) (libraryId : String) (libraryData : JSVal) :
    Outcome Request ε α :=
  callVia t ⟨.put, "/api/knowledge/libraries/" ++ libraryId, some libraryData⟩ "更新知识库失败:"

/-- `deleteLibrary(libraryId)`: DELETE `/api/knowledge/libraries/${libraryId}`. -/
def deleteLibrary (t : Transport ε α) (libraryId : String) :
    Outcome Request ε α :=
  callVia t ⟨.delete, "/api/knowledge/libraries/" ++ libraryId, none⟩ "删除知识库失败:"

/-- `addDocument(documentData)`: POST `/api/knowledge/documents` with the
caller's payload forwarded as-is. -/
def addDocument (t : Transport ε α) (documentData : JSVal) :
    Outcome Request ε α :=
  callVia t ⟨.post, "/api/knowledge/documents", some documentData⟩ "添加文档失败:"

/-- `updateDocument(documentId, documentData)`: PUT
`/api/knowledge/documents/${documentId}` with the caller's payload as-is. -/
def updateDocument (t : Transport ε α) (documentId : String) (documentData : JSVal) :
    Outcome Request ε α :=
  callVia t ⟨.put, "/api/knowledge/documents/" ++ documentId, some documentData⟩ "更新文档失败:"

/-- `deleteDocument(documentId)`: DELETE `/api/knowledge/documents/${documentId}`. -/
def deleteDocument (t : Transport ε α) (documentId : String) :
    Outcome Request ε α :=
  callVia t ⟨.delete, "/api/knowledge/documents/" ++ documentId, none⟩ "删除文档失败:"

/-- `getUploadUrl(documentName)`: POST `/api/knowledge/upload-url` with body
`\x7b document_name: documentName \x7d`. -/
def getUploadUrl (t : Transport ε α) (documentName : JSVal) :
    Outcome Request ε α :=
  callVia t ⟨.post, "/api/knowledge/upload-url",
    some (.obj [("document_name", documentName)])⟩ "获取上传URL失败:"

/-- `crawlSite(crawlData)`: POST `/api/crawl/site` with the caller's payload
forwarded as-is. -/
def crawlSite (t : Transport ε α) (crawlData : JSVal) :
    Outcome Request ε α :=
  callVia t ⟨.post, "/api/crawl/site", some crawlData⟩ "爬取网站失败:"

/-- `uploadLocalFile(file, collectionId, libraryId, chunkStrategy = 'markdown')`:
POST `/api/upload/process` with a `FormData` body appending `file`,
`collection_id`, `library_id`, `chunk_strategy` in that order; `none` for
`chunkStrategy` models a call omitting the argument, so the JS default
`'markdown'` applies. -/
def uploadLocalFile (t : Transport ε α) (file : JSFile)
    (collectionId libraryId : JSVal) (chunkStrategy : Option String) :
    Outcome Request ε α :=
  callVia t ⟨.post, "/api/upload/process",
    some (.formData
      [("file", .file file),
       ("collection_id", collectionId),
       ("library_id", libraryId),
       ("chunk_strategy", .str (chunkStrategy.getD "markdown"))])⟩ "本地上传失败:"

/-- `getKnowledgeGraph(collectionId, label = '*')`: GET
`/api/visual/graph/${collectionId}` with query object
`\x7b label: label \x7d`; `none` models a call omitting the `label`
argument, so the JS default `'*'` applies. -/
def getKnowledgeGraph (t : Transport ε α) (collectionId : String)
    (label : Option String) : Outcome Request ε α :=
  callVia t ⟨.get, "/api/visual/graph/" ++ collectionId,
    some (.obj [("label", .str (label.getD "*"))])⟩ "获取知识图谱失败:"

/-- `processOSSDocument(ossUrl, collectionId, documentName, libraryId)`:
POST `/api/crawl/process-oss-document` with the four fields in a body object. -/
def processOSSDocument (t : Transport ε α)
    (ossUrl collectionId documentName libraryId : JSVal) :
    Outcome Request ε α :=
  callVia t ⟨.post, "/api/crawl/process-oss-document",
    some (.obj
      [("oss_url", ossUrl),
       ("collection_id", collectionId),
       ("document_name", documentName),
       ("library_id", libraryId)])⟩ "处理 OSS 文档失败:"

/-- A response of the raw `fetch` primitive: HTTP status and status text. -/
structure FetchResponse where
  status : Nat
  statusText : String
deriving Repr, DecidableEq

/-- `response.ok` of the fetch API: status in the inclusive range 200-299. -/
def FetchResponse.ok (r : FetchResponse) : Bool :=
  200 ≤ r.status && r.status ≤ 299

/-- A request issued through the raw `fetch` primitive: target URL, HTTP
method string, request body, and the `Content-Type` header value. -/
structure FetchRequest where
  url : String
  method : String
  body : JSVal
  contentType : String
deriving Repr

/-- The raw `fetch` primitive, as the upload path observes it: a function
from the request to the settled response. -/
abbrev Fetch := FetchRequest → FetchResponse

/-- The object `uploadFileToOSS` resolves with on success:
`\x7b success: true, url: ... \x7d`. -/
structure UploadResult where
  success : Bool
  url : String
deriving Repr, DecidableEq

/-- JavaScript's `String.prototype.split(sep)` on a character separator,
over the string's character list: splits at every occurrence of `sep`,
yielding the (possibly empty) segments between occurrences. -/
def jsSplitChars (sep : Char) : List Char → List (List Char)
  | [] => [[]]
  | a :: rest =>
    if a = sep then [] :: jsSplitChars sep rest
    else
      match jsSplitChars sep rest with
      | [] => [[a]]
      | h :: t => (a :: h) :: t

/-- `uploadUrl.split('?')[0]` from the source: the first segment of the
split, i.e. element `0` of the array `split` returns. -/
def splitQueryOff (s : String) : String :=
  ((jsSplitChars '?' s.data).headD []).asString

/-- The upload failure message synthesized by the source for a non-ok fetch
response: the template literal interpolating status and status text. -/
def uploadFailMessage (r : FetchResponse) : String :=
  "上传失败: " ++ toString r.status ++ " " ++ r.statusText

/-- `uploadFileToOSS(uploadUrl, file)`: builds a `FormData` (which the source
never sends — `formData` below is unused, as in the source), issues one PUT
via raw `fetch` with the raw file as body and `Content-Type` from
`file.type`; a non-ok response raises the synthesized error, which the
surrounding catch logs and rethrows; an ok response resolves with
`success: true` and the URL with its query string split off. -/
def uploadFileToOSS (fetch : Fetch) (uploadUrl : String) (file : JSFile) :
    Outcome FetchRequest String UploadResult :=
  let formData : List (String × JSVal) := [("file", .file file)]
  let req : FetchRequest := ⟨uploadUrl, "PUT", .file file, file.type⟩
  let response := fetch req
  if response.ok then
    ⟨[req], [], .ok ⟨true, splitQueryOff uploadUrl⟩⟩
  else
    ⟨[req], [("上传文件到OSS失败:", uploadFailMessage response)],
      .error (uploadFailMessage response)⟩

/-- One call of a catalogue operation of `KnowledgeLibraryAPI`, with its
arguments (the transport-using operations; `uploadFileToOSS` bypasses the
transport and is modelled separately). -/
inductive OpCall where
  | getLibraries
  | getLibraryDetail (libraryId : String)
  | createLibrary (libraryData : JSVal)
  | updateLibrary (libraryId : String) (libraryData : JSVal)
  | deleteLibrary (libraryId : String)
  | addDocument (documentData : JSVal)
  | updateDocument (documentId : String) (documentData : JSVal)
  | deleteDocument (documentId : String)
  | getUploadUrl (documentName : JSVal)
  | crawlSite (crawlData : JSVal)
  | uploadLocalFile (file : JSFile) (collectionId libraryId : JSVal)
      (chunkStrategy : Option String)
  | getKnowledgeGraph (collectionId : String) (label : Option String)
  | processOSSDocument (ossUrl collectionId documentName libraryId : JSVal)

/-- Run one catalogue operation against the given transport. -/
def dispatch (t : Transport ε α) : OpCall → Outcome Request ε α
  | .getLibraries => getLibraries t
  | .getLibraryDetail libraryId => getLibraryDetail t libraryId
  | .createLibrary libraryData => createLibrary t libraryData
  | .updateLibrary libraryId libraryData => updateLibrary t libraryId libraryData
  | .deleteLibrary libraryId => deleteLibrary t libraryId
  | .addDocument documentData => addDocument t documentData
  | .updateDocument documentId documentData => updateDocument t documentId documentData
  | .deleteDocument documentId => deleteDocument t documentId
  | .getUploadUrl documentName => getUploadUrl t documentName
  | .crawlSite crawlData => crawlSite t crawlData
  | .uploadLocalFile file collectionId libraryId chunkStrategy =>
      uploadLocalFile t file collectionId libraryId chunkStrategy
  | .getKnowledgeGraph collectionId label => getKnowledgeGraph t collectionId label
  | .processOSSDocument ossUrl collectionId documentName libraryId =>
      processOSSDocument t ossUrl collectionId documentName libraryId

/-- The operation-specific diagnostic label each catalogue method passes to
`console.error` in its catch block, read off the source. -/
def opLabel : OpCall → String
  | .getLibraries => "获取知识库列表失败:"
  | .getLibraryDetail _ => "获取知识库详情失败:"
  | .createLibrary _ => "创建知识库失败:"
  | .updateLibrary _ _ => "更新知识库失败:"
  | .deleteLibrary _ => "删除知识库失败:"
  | .addDocument _ => "添加文档失败:"
  | .updateDocument _ _ => "更新文档失败:"
  | .deleteDocument _ => "删除文档失败:"
  | .getUploadUrl _ => "获取上传URL失败:"
  | .crawlSite _ => "爬取网站失败:"
  | .uploadLocalFile _ _ _ _ => "本地上传失败:"
  | .getKnowledgeGraph _ _ => "获取知识图谱失败:"
  | .processOSSDocument _ _ _ _ => "处理 OSS 文档失败:"

/-- Modelled from the spec: the documented verb, path, and body/query shape
of each catalogue operation, read off the operation catalogue table of the
specification (not off the source), to be compared with the requests the
source methods actually issue. -/
def specRequest : OpCall → Request
  | .getLibraries => ⟨.get, "/api/knowledge/libraries", none⟩
  | .getLibraryDetail libraryId =>
      ⟨.get, "/api/knowledge/libraries/" ++ libraryId, none⟩
  | .createLibrary libraryData =>
      ⟨.post, "/api/knowledge/libraries", some libraryData⟩
  | .updateLibrary libraryId libraryData =>
      ⟨.put, "/api/knowledge/libraries/" ++ libraryId, some libraryData⟩
  | .deleteLibrary libraryId =>
      ⟨.delete, "/api/knowledge/libraries/" ++ libraryId, none⟩
  | .addDocument documentData =>
      ⟨.post, "/api/knowledge/documents", some documentData⟩
  | .updateDocument documentId documentData =>
      ⟨.put, "/api/knowledge/documents/" ++ documentId, some documentData⟩
  | .deleteDocument documentId =>
      ⟨.delete, "/api/knowledge/documents/" ++ documentId, none⟩
  | .getUploadUrl documentName =>
      ⟨.post, "/api/knowledge/upload-url", some (.obj [("document_name", documentName)])⟩
  | .crawlSite crawlData => ⟨.post, "/api/crawl/site", some crawlData⟩
  | .uploadLocalFile file collectionId libraryId chunkStrategy =>
      ⟨.post, "/api/upload/process",
        some (.formData
          [("file", .file file),
           ("collection_id", collectionId),
           ("library_id", libraryId),
           ("chunk_strategy", .str (chunkStrategy.getD "markdown"))])⟩
  | .getKnowledgeGraph collectionId label =>
      ⟨.get, "/api/visual/graph/" ++ collectionId,
        some (.obj [("label", .str (label.getD "*"))])⟩
  | .processOSSDocument ossUrl collectionId documentName libraryId =>
      ⟨.post, "/api/crawl/process-oss-document",
        some (.obj
          [("oss_url", ossUrl),
           ("collection_id", collectionId),
           ("document_name", documentName),
           ("library_id", libraryId)])⟩

/-- The client instance's state: the source class declares no instance
fields and no method assigns to `this`, so the only state reachable through
the instance is the shared read-only transport handle. -/
structure ClientState (ε α : Type) where
  transport : Transport ε α

/-- Run one catalogue operation on the client: since no method body assigns
to any instance field, the state a call leaves behind is the state it was
given. -/
def stepClient (c : ClientState ε α) (call : OpCall) :
    ClientState ε α × Outcome Request ε α :=
  (c, dispatch c.transport call)

/-- Run a sequence of catalogue operations, threading the client state from
call to call and collecting each call's outcome. -/
def runCalls (c : ClientState ε α) : List OpCall → ClientState ε α × List (Outcome Request ε α)
  | [] => (c, [])
  | call :: rest =>
    let fst := stepClient c call
    let next := runCalls fst.1 rest
    (next.1, fst.2 :: next.2)

/-! Helper lemmas about the shared call pattern and the split primitive. -/

theorem callVia_ok (t : Transport ε α) (req : Request) (label : String) (v : α)
    (h : t req = Except.ok v) : callVia t req label = ⟨[req], [], Except.ok v⟩ := by
  unfold callVia
  rw [h]

theorem callVia_error (t : Transport ε α) (req : Request) (label : String) (e : ε)
    (h : t req = Except.error e) :
    callVia t req label = ⟨[req], [(label, e)], Except.error e⟩ := by
  unfold callVia
  rw [h]

theorem callVia_requests (t : Transport ε α) (req : Request) (label : String) :
    (callVia t req label).requests = [req] := by
  unfold callVia
  cases t req <;> rfl

theorem jsSplitChars_ne_nil (sep : Char) (l : List Char) : jsSplitChars sep l ≠ [] := by
  cases l with
  | nil => simp [jsSplitChars]
  | cons a rest =>
    simp only [jsSplitChars]
    split
    · simp
    · split <;> simp

theorem jsSplitChars_headD (sep : Char) (l : List Char) :
    (jsSplitChars sep l).headD [] = l.takeWhile (fun a => a != sep) := by
  induction l with
  | nil => rfl
  | cons a rest ih =>
    simp only [jsSplitChars, List.takeWhile]
    by_cases h : a = sep
    · subst h
      simp
    · rw [if_neg h]
      rcases hj : jsSplitChars sep rest with _ | ⟨hd, tl⟩
      · exact absurd hj (jsSplitChars_ne_nil sep rest)
      · rw [hj] at ih
        have hb : (a != sep) = true := by simp [h]
        simp only [hb, List.headD]
        rw [← ih]
        rfl

/-- Modelled from the spec: "the prefix of `uploadUrl` preceding its first
question-mark character (everything from the first question mark onward
removed)" — the documented result URL on upload success. -/
def beforeFirstQuery (s : String) : String :=
  (s.data.takeWhile (fun a => a != '?')).asString

theorem splitQueryOff_eq (s : String) : splitQueryOff s = beforeFirstQuery s :=
  congrArg List.asString (jsSplitChars_headD '?' s.data)

theorem uploadFileToOSS_requests (fetch : Fetch) (uploadUrl : String) (file : JSFile) :
    (uploadFileToOSS fetch uploadUrl file).requests
      = [⟨uploadUrl, "PUT", JSVal.file file, file.type⟩] := by
  simp only [uploadFileToOSS]
  split <;> rfl

theorem uploadFileToOSS_ok (fetch : Fetch) (uploadUrl : String) (file : JSFile)
    (h : (fetch ⟨uploadUrl, "PUT", JSVal.file file, file.type⟩).ok = true) :
    uploadFileToOSS fetch uploadUrl file
      = ⟨[⟨uploadUrl, "PUT", JSVal.file file, file.type⟩], [],
          Except.ok ⟨true, splitQueryOff uploadUrl⟩⟩ := by
  simp only [uploadFileToOSS]
  rw [if_pos h]

theorem uploadFileToOSS_fail (fetch : Fetch) (uploadUrl : String) (file : JSFile)
    (h : (fetch ⟨uploadUrl, "PUT", JSVal.file file, file.type⟩).ok = false) :
    uploadFileToOSS fetch uploadUrl file
      = ⟨[⟨uploadUrl, "PUT", JSVal.file file, file.type⟩],
          [("上传文件到OSS失败:",
            uploadFailMessage (fetch ⟨uploadUrl, "PUT", JSVal.file file, file.type⟩))],
          Except.error
            (uploadFailMessage (fetch ⟨uploadUrl, "PUT", JSVal.file file, file.type⟩))⟩ := by
  simp only [uploadFileToOSS]
  rw [if_neg (by simp [h])]

/-! The claims. -/

/-- C1: for every catalogue operation of `KnowledgeLibraryAPI` and for every
input value (no local validation is performed), when the transport succeeds
the operation issues exactly one request to the transport, with the
documented HTTP verb, path, and body/query shape (`specRequest`, read off
the specification's operation catalogue), and resolves to the transport's
response value unchanged. -/
theorem c1_catalogue_passthrough (ε α : Type) (t : Transport ε α) (call : OpCall)
    (v : α) (h : t (specRequest call) = Except.ok v) :
    dispatch t call = ⟨[specRequest call], [], Except.ok v⟩ := by
  cases call <;> exact callVia_ok t _ _ v h

/-- Witness for C1: a transport stub answering `7` on the list-libraries
request makes `getLibraries` resolve to `7` after exactly that one request. -/
theorem c1_catalogue_passthrough_witness :
    dispatch (fun _ => (Except.ok 7 : Except String Nat)) OpCall.getLibraries
      = ⟨[specRequest OpCall.getLibraries], [], Except.ok 7⟩ :=
  c1_catalogue_passthrough String Nat (fun _ => Except.ok 7) OpCall.getLibraries 7 rfl

/-- C2: for every catalogue operation and every failure value, when the
transport rejects with that value the operation rejects with the identical
failure value, emits exactly one diagnostic with the operation-specific
label, and issues exactly one request (no retry); moreover the thirteen
labels are pairwise distinct, so the label identifies the operation. -/
theorem c2_catalogue_error_propagation :
    (∀ (ε α : Type) (t : Transport ε α) (e : ε), (∀ r, t r = Except.error e) →
      ∀ call : OpCall,
        (dispatch t call).result = Except.error e ∧
        (dispatch t call).log = [(opLabel call, e)] ∧
        (dispatch t call).requests.length = 1) ∧
    ([opLabel OpCall.getLibraries,
      opLabel (OpCall.getLibraryDetail ""),
      opLabel (OpCall.createLibrary (JSVal.num 0)),
      opLabel (OpCall.updateLibrary "" (JSVal.num 0)),
      opLabel (OpCall.deleteLibrary ""),
      opLabel (OpCall.addDocument (JSVal.num 0)),
      opLabel (OpCall.updateDocument "" (JSVal.num 0)),
      opLabel (OpCall.deleteDocument ""),
      opLabel (OpCall.getUploadUrl (JSVal.num 0)),
      opLabel (OpCall.crawlSite (JSVal.num 0)),
      opLabel (OpCall.uploadLocalFile ⟨"", "", ""⟩ (JSVal.num 0) (JSVal.num 0) none),
      opLabel (OpCall.getKnowledgeGraph "" none),
      opLabel (OpCall.processOSSDocument (JSVal.num 0) (JSVal.num 0) (JSVal.num 0)
        (JSVal.num 0))]).Nodup := by
  constructor
  · intro ε α t e h call
    have key : ∀ (req : Request) (label : String),
        (callVia t req label).result = Except.error e ∧
        (callVia t req label).log = [(label, e)] ∧
        (callVia t req label).requests.length = 1 := by
      intro req label
      rw [callVia_error t req label e (h req)]
      exact ⟨rfl, rfl, rfl⟩
    cases call <;> exact key _ _
  · decide

/-- Witness for C2: a transport stub rejecting everything with `"boom"`
makes `getLibraries` reject with `"boom"` itself, log exactly one diagnostic
under its label, and issue exactly one request. -/
theorem c2_catalogue_error_propagation_witness :
    (dispatch (fun _ => (Except.error "boom" : Except String Nat))
        OpCall.getLibraries).result = Except.error "boom" ∧
    (dispatch (fun _ => (Except.error "boom" : Except String Nat))
        OpCall.getLibraries).log = [(opLabel OpCall.getLibraries, "boom")] ∧
    (dispatch (fun _ => (Except.error "boom" : Except String Nat))
        OpCall.getLibraries).requests.length = 1 :=
  c2_catalogue_error_propagation.1 String Nat (fun _ => Except.error "boom") "boom"
    (fun _ => rfl) OpCall.getLibraries

/-- C3: for every upload URL and file, when the raw fetch returns a 2xx
response, `uploadFileToOSS` resolves to `success := true` with `url` the
prefix of the upload URL preceding its first question mark (everything from
the first question mark onward removed). -/
theorem c3_upload_success_strips_query (fetch : Fetch) (uploadUrl : String)
    (file : JSFile)
    (h : (fetch ⟨uploadUrl, "PUT", JSVal.file file, file.type⟩).ok = true) :
    (uploadFileToOSS fetch uploadUrl file).result
      = Except.ok ⟨true, beforeFirstQuery uploadUrl⟩ := by
  rw [uploadFileToOSS_ok fetch uploadUrl file h]
  rw [show (⟨[⟨uploadUrl, "PUT", JSVal.file file, file.type⟩], [],
        Except.ok ⟨true, splitQueryOff uploadUrl⟩⟩ :
      Outcome FetchRequest String UploadResult).result
    = Except.ok ⟨true, splitQueryOff uploadUrl⟩ from rfl]
  rw [splitQueryOff_eq]

/-- Witness for C3: with a stub fetch answering 200, a URL holding two
question marks is truncated at the first one. -/
theorem c3_upload_success_strips_query_witness :
    ((fun _ => (⟨200, "OK"⟩ : FetchResponse))
        (⟨"https://oss/a?k=v?x=y", "PUT", JSVal.file ⟨"f.txt", "text/plain", "hi"⟩,
          "text/plain"⟩ : FetchRequest)).ok = true ∧
    (uploadFileToOSS (fun _ => ⟨200, "OK"⟩) "https://oss/a?k=v?x=y"
        ⟨"f.txt", "text/plain", "hi"⟩).result
      = Except.ok ⟨true, "https://oss/a"⟩ :=
  ⟨rfl,
    (c3_upload_success_strips_query (fun _ => ⟨200, "OK"⟩) "https://oss/a?k=v?x=y"
        ⟨"f.txt", "text/plain", "hi"⟩ rfl).trans (by rfl)⟩

/-- C4: for every upload URL and file, when the raw fetch returns a non-2xx
response, `uploadFileToOSS` rejects with the synthesized error message,
which contains the numeric status code and the status text. -/
theorem c4_upload_failure_message (fetch : Fetch) (uploadUrl : String) (file : JSFile)
    (h : (fetch ⟨uploadUrl, "PUT", JSVal.file file, file.type⟩).ok = false) :
    (uploadFileToOSS fetch uploadUrl file).result
      = Except.error
          (uploadFailMessage (fetch ⟨uploadUrl, "PUT", JSVal.file file, file.type⟩)) ∧
    (∃ a b, uploadFailMessage (fetch ⟨uploadUrl, "PUT", JSVal.file file, file.type⟩)
      = a ++ toString (fetch ⟨uploadUrl, "PUT", JSVal.file file, file.type⟩).status ++ b) ∧
    (∃ a b, uploadFailMessage (fetch ⟨uploadUrl, "PUT", JSVal.file file, file.type⟩)
      = a ++ (fetch ⟨uploadUrl, "PUT", JSVal.file file, file.type⟩).statusText ++ b) := by
  refine ⟨?_, ?_, ?_⟩
  · rw [uploadFileToOSS_fail fetch uploadUrl file h]
  · refine ⟨"上传失败: ",
      " " ++ (fetch ⟨uploadUrl, "PUT", JSVal.file file, file.type⟩).statusText, ?_⟩
    simp only [uploadFailMessage]
    rw [String.append_assoc]
  · refine ⟨"上传失败: "
        ++ toString (fetch ⟨uploadUrl, "PUT", JSVal.file file, file.type⟩).status
        ++ " ", "", ?_⟩
    simp only [uploadFailMessage]
    rw [String.append_empty]

/-- Witness for C4: with a stub fetch answering 403 Forbidden, the rejection
message is the synthesized string and contains `403`. -/
theorem c4_upload_failure_message_witness :
    (uploadFileToOSS (fun _ => ⟨403, "Forbidden"⟩) "https://oss/a?k=v"
        ⟨"f.txt", "text/plain", "hi"⟩).result
      = Except.error "上传失败: 403 Forbidden" ∧
    ∃ a b, ("上传失败: 403 Forbidden" : String) = a ++ "403" ++ b :=
  ⟨((c4_upload_failure_message (fun _ => ⟨403, "Forbidden"⟩) "https://oss/a?k=v"
      ⟨"f.txt", "text/plain", "hi"⟩ rfl).1).trans (by rfl),
    ⟨"上传失败: ", " Forbidden", by rfl⟩⟩

/-- C5: for every upload URL and file, `uploadFileToOSS` issues exactly one
PUT through the raw fetch primitive whose body is the raw file object (not
the multipart form the source constructs and never sends) and whose
`Content-Type` equals the file's `type` field. -/
theorem c5_upload_put_raw_body (fetch : Fetch) (uploadUrl : String) (file : JSFile) :
    (uploadFileToOSS fetch uploadUrl file).requests
      = [⟨uploadUrl, "PUT", JSVal.file file, file.type⟩] ∧
    JSVal.file file ≠ JSVal.formData [("file", JSVal.file file)] :=
  ⟨uploadFileToOSS_requests fetch uploadUrl file, fun hcon => JSVal.noConfusion hcon⟩

/-- C6: for every collection id, calling `getKnowledgeGraph` with no label
argument issues exactly one GET to `/api/visual/graph/` followed by the
collection id, with query object whose `label` field equals `"*"`. -/
theorem c6_graph_default_label (ε α : Type) (t : Transport ε α) (collectionId : String) :
    (getKnowledgeGraph t collectionId none).requests
      = [⟨.get, "/api/visual/graph/" ++ collectionId,
          some (.obj [("label", .str "*")])⟩] :=
  callVia_requests t _ _

/-- C7: for every file, collection id and library id, calling
`uploadLocalFile` with no chunk-strategy argument issues exactly one POST to
`/api/upload/process` whose multipart body holds `file`, `collection_id`,
`library_id` and `chunk_strategy`, the last equal to `"markdown"`. -/
theorem c7_upload_local_default_strategy (ε α : Type) (t : Transport ε α)
    (file : JSFile) (collectionId libraryId : JSVal) :
    (uploadLocalFile t file collectionId libraryId none).requests
      = [⟨.post, "/api/upload/process",
          some (.formData
            [("file", .file file),
             ("collection_id", collectionId),
             ("library_id", libraryId),
             ("chunk_strategy", .str "markdown")])⟩] :=
  callVia_requests t _ _

/-- C8: no operation mutates the client instance or any state shared between
calls: the state a call leaves is the state it received, and after any
sequence of operations the client state is the initial one. -/
theorem c8_stateless_client :
    (∀ (ε α : Type) (c : ClientState ε α) (call : OpCall),
      (stepClient c call).1 = c) ∧
    (∀ (ε α : Type) (c : ClientState ε α) (calls : List OpCall),
      (runCalls c calls).1 = c) := by
  refine ⟨fun ε α c call => rfl, fun ε α c calls => ?_⟩
  induction calls with
  | nil => rfl
  | cons a l ih => exact ih

/-- C9: for every upload URL containing no question mark, `uploadFileToOSS`
on a 2xx fetch resolves with `url` equal to the input URL unchanged. -/
theorem c9_upload_no_query_identity (fetch : Fetch) (uploadUrl : String) (file : JSFile)
    (hq : uploadUrl.data.all (fun a => a != '?') = true)
    (h : (fetch ⟨uploadUrl, "PUT", JSVal.file file, file.type⟩).ok = true) :
    (uploadFileToOSS fetch uploadUrl file).result = Except.ok ⟨true, uploadUrl⟩ := by
  rw [uploadFileToOSS_ok fetch uploadUrl file h]
  have h2 : splitQueryOff uploadUrl = uploadUrl := by
    rw [splitQueryOff_eq]
    unfold beforeFirstQuery
    rw [List.takeWhile_eq_self_iff.mpr (List.all_eq_true.mp hq)]
    rfl
  rw [h2]

/-- Witness for C9: a query-free URL is returned unchanged on a 200 fetch. -/
theorem c9_upload_no_query_identity_witness :
    ("https://oss/plain.png".data.all (fun a => a != '?')) = true ∧
    (uploadFileToOSS (fun _ => ⟨200, "OK"⟩) "https://oss/plain.png"
        ⟨"f.png", "image/png", "bits"⟩).result
      = Except.ok ⟨true, "https://oss/plain.png"⟩ :=
  ⟨by decide,
    c9_upload_no_query_identity (fun _ => ⟨200, "OK"⟩) "https://oss/plain.png"
      ⟨"f.png", "image/png", "bits"⟩ (by decide) rfl⟩

/-- C10: every operation is deterministic: transports (or fetch primitives)
answering identically make the operation issue identical requests and
produce identical outcomes. -/
theorem c10_deterministic :
    (∀ (ε α : Type) (t₁ t₂ : Transport ε α), (∀ r, t₁ r = t₂ r) →
      ∀ call : OpCall, dispatch t₁ call = dispatch t₂ call) ∧
    (∀ (f₁ f₂ : Fetch), (∀ r, f₁ r = f₂ r) →
      ∀ (uploadUrl : String) (file : JSFile),
        uploadFileToOSS f₁ uploadUrl file = uploadFileToOSS f₂ uploadUrl file) := by
  constructor
  · intro ε α t₁ t₂ h call
    rw [funext h]
  · intro f₁ f₂ h uploadUrl file
    rw [funext h]

/-- Witness for C10: both determinism statements applied at concrete stubs. -/
theorem c10_deterministic_witness :
    dispatch (fun _ => (Except.ok 0 : Except String Nat)) OpCall.getLibraries
      = dispatch (fun _ => (Except.ok 0 : Except String Nat)) OpCall.getLibraries ∧
    uploadFileToOSS (fun _ => ⟨200, "OK"⟩) "u" ⟨"n", "t", "c"⟩
      = uploadFileToOSS (fun _ => ⟨200, "OK"⟩) "u" ⟨"n", "t", "c"⟩ :=
  ⟨c10_deterministic.1 String Nat _ _ (fun _ => rfl) OpCall.getLibraries,
    c10_deterministic.2 _ _ (fun _ => rfl) "u" ⟨"n", "t", "c"⟩⟩

end Knowledge
